import Mathlib

/-
Verification of the repair_conda utility (src/repair_conda.py) against its
natural-language specification.

The program is a single linear procedure: it resolves two paths (the
"broken"/expected alias path and the "actual" install path), logs
diagnostics, looks up an external executable with the OS command-lookup
facility (`where cookiecutter`), and then decides between four branches:
fatal (actual path missing, exit 1), no-op (broken path already exists,
exit 0), dry-run (apply flag absent, exit 0), and apply (create an NTFS
junction via `cmd /c mklink /J <link> <target>` as a subprocess).

Shallow embedding: every filesystem observation and every subprocess result
is an input supplied by an ambient `World`.  Each syntactic call site of a
filesystem existence test gets its own observation field, so a path whose
existence status changes between two of the program's own checks is
representable (the spec discusses exactly such a race).  Subprocess calls
are modelled by the `CompletedProcess` the OS would return; `none` models
the spawn itself raising (e.g. FileNotFoundError from subprocess.run),
which no code in the program catches.  The embedded `main` returns the
process exit status, whether termination was by an uncaught exception, the
ordered list of subprocess command lines actually executed, the log lines
emitted, the diagnostic lookup value (if computed), and whether the tool
performed its one possible filesystem mutation (a successful mklink).
-/

namespace RepairConda

/-- Result of a completed subprocess, mirroring Python's
`subprocess.CompletedProcess` as used by `run` (returncode, stdout, stderr). -/
structure CompletedProcess where
  returncode : Int
  stdout : String
  stderr : String
deriving DecidableEq, Repr

/-- The command-line arguments after argparse: `--broken-root` and
`--actual-root` are `none` when the flag was not given, `apply` and `debug`
are store_true flags. -/
structure Cli where
  brokenRoot : Option String
  actualRoot : Option String
  apply : Bool
  debug : Bool
deriving DecidableEq, Repr

/-- The ambient environment for one invocation.  Each filesystem existence
test in the source has its own observation field, named after its call
site: `brokenExistsDiag`/`brokenIsDirDiag` for the diagnostic line at
main line 132, `actualExistsDiag`/`actualIsDirDiag` for line 133,
`actualExistsCheck` for the precondition check at line 138,
`brokenExistsCheck` for the no-op check at line 143, and `linkExistsCJ`
for the check inside create_junction at line 82.  `whereResult` and
`mklinkResult` are what `subprocess.run` yields for the two commands the
program can issue (`none` = the spawn raises).  `sysExecutable` is
`sys.executable` and `sysExecutableParent` is `Path(sys.executable).parent`,
an OS/stdlib observation. -/
structure World where
  whereResult : Option CompletedProcess
  mklinkResult : Option CompletedProcess
  brokenExistsDiag : Bool
  brokenIsDirDiag : Bool
  actualExistsDiag : Bool
  actualIsDirDiag : Bool
  actualExistsCheck : Bool
  brokenExistsCheck : Bool
  linkExistsCJ : Bool
  sysExecutable : String
  sysExecutableParent : String
deriving DecidableEq, Repr

/-- Observable outcome of one invocation of the tool: process exit status,
whether the process died by an uncaught exception, the subprocess command
lines executed (in order), the log lines emitted, the diagnostic
cookiecutter value (`none` if execution never computed it), and whether the
tool performed its one possible mutation (a successful mklink). -/
structure Result where
  exitCode : Nat
  abnormal : Bool
  commands : List (List String)
  logs : List String
  cookie : Option String
  created : Bool
deriving DecidableEq, Repr

/-- Single-quote character, used by Python's repr of a string. -/
def squote : String := String.singleton (Char.ofNat 39)

/-- Python repr of a plain string (no embedded quotes or escapes). -/
def pyStrRepr (s : String) : String := squote ++ s ++ squote

/-- Python repr of a list of strings, as an f-string renders `{cmd}`. -/
def pyListRepr (xs : List String) : String :=
  "[" ++ String.intercalate ", " (xs.map pyStrRepr) ++ "]"

/-- The debug log line `run` emits before spawning, present only at debug
verbosity (`logger.debug` is filtered out at the default INFO level). -/
def execLog (debug : Bool) (cmd : List String) : List String :=
  if debug then ["Executing: " ++ pyListRepr cmd] else []

/-- Embeds `run` (source lines 57-60): logs the debug line, then returns
what `subprocess.run` yields for this command — the world supplies the
answer, `none` meaning the spawn raises.  Result: (log lines, outcome). -/
def run (debug : Bool) (answer : Option CompletedProcess) (cmd : List String) :
    List String × Option CompletedProcess :=
  (execLog debug cmd, answer)

/-- Embeds `path_exists_description` (source lines 63-66); the two booleans
are the `exists()` and `is_dir()` observations at this call site. -/
def path_exists_description (pexists isDir : Bool) : String :=
  if pexists then
    if isDir then "exists (junction)" else "exists (file/dir)"
  else "missing"

/-- The command-lookup invocation issued by get_cookiecutter_path. -/
def whereCmd : List String := ["where", "cookiecutter"]

/-- Embeds `get_cookiecutter_path` (source lines 69-74).  Returns
(debug log lines, commands executed, outcome); outcome `none` means the
spawn raised and the exception propagates.  On a zero return code the
stripped stdout is the value; on a non-zero return code the value is
"not found". -/
def get_cookiecutter_path (debug : Bool) (w : World) :
    List String × List (List String) × Option String :=
  let res := run debug w.whereResult whereCmd
  match res.2 with
  | none => (res.1, [], none)
  | some r =>
    if r.returncode = 0 then (res.1, [whereCmd], some r.stdout.trim)
    else (res.1, [whereCmd], some "not found")

/-- The OS link-creation command line built at source line 86:
`cmd /c mklink /J <link> <target>`. -/
def mklinkCmdFor (link target : String) : List String :=
  ["cmd", "/c", "mklink", "/J", link, target]

/-- Embeds `create_junction` (source lines 77-93): its own existence check
on the link path first, then `cmd /c mklink /J <link> <target>`.  Returns
(log lines, commands executed, outcome); outcome `none` means the spawn
raised, `some true` means the junction was created (zero return code),
`some false` means refused or failed. -/
def create_junction (debug : Bool) (w : World) (target link : String) :
    List String × List (List String) × Option Bool :=
  if w.linkExistsCJ then
    (["Cannot create junction: " ++ link ++ " already exists."], [], some false)
  else
    let cmd := mklinkCmdFor link target
    let res := run debug w.mklinkResult cmd
    match res.2 with
    | none => (res.1, [], none)
    | some r =>
      if r.returncode = 0 then
        (res.1 ++ ["Created junction: " ++ link ++ " -> " ++ target], [cmd], some true)
      else
        (res.1 ++ ["mklink failed: " ++ r.stderr], [cmd], some false)

/-- Embeds main line 127: the broken root is the flag value, defaulting to
the fixed well-known path C:\miniconda3 (the argparse default). -/
def resolveBroken (c : Cli) : String := c.brokenRoot.getD "C:\\miniconda3"

/-- Embeds main line 128: `Path(args.actual_root) if args.actual_root else
Path(sys.executable).parent` — Python truthiness, so both an absent flag and
an empty string fall back to the interpreter executable's parent. -/
def resolveActual (c : Cli) (w : World) : String :=
  match c.actualRoot with
  | some s => if s = "" then w.sysExecutableParent else s
  | none => w.sysExecutableParent

/-- The four informational lines main logs before the cookiecutter lookup
(source lines 130-133). -/
def headerLogs (c : Cli) (w : World) : List String :=
  ["=== Miniconda Cookiecutter Path Repair Tool ===",
   "Running Python: " ++ w.sysExecutable,
   "Expected broken root: " ++ resolveBroken c ++ " [" ++
     path_exists_description w.brokenExistsDiag w.brokenIsDirDiag ++ "]",
   "Detected actual root: " ++ resolveActual c w ++ " [" ++
     path_exists_description w.actualExistsDiag w.actualIsDirDiag ++ "]"]

/-- Embeds `main` (source lines 100-160): diagnostics, the cookiecutter
lookup, then the decision tree — fatal when the actual root is missing
(exit 1), no-op when the broken root already exists (exit 0), dry-run when
the apply flag is absent (exit 0, command printed), otherwise the apply
branch calling create_junction (exit 0 on success, 1 on failure). -/
def main (c : Cli) (w : World) : Result :=
  let broken := resolveBroken c
  let actual := resolveActual c w
  let logs0 : List String := headerLogs c w
  match get_cookiecutter_path c.debug w with
  | (dlogs, cmds, none) =>
      { exitCode := 1, abnormal := true, commands := cmds,
        logs := logs0 ++ dlogs, cookie := none, created := false }
  | (dlogs, cmds, some cookie) =>
      let logs1 := logs0 ++ dlogs ++ ["cookiecutter resolved to: " ++ cookie]
      if !w.actualExistsCheck then
        { exitCode := 1, abnormal := false, commands := cmds,
          logs := logs1 ++ ["Actual miniconda root does not exist. Cannot continue."],
          cookie := some cookie, created := false }
      else if w.brokenExistsCheck then
        { exitCode := 0, abnormal := false, commands := cmds,
          logs := logs1 ++ [broken ++ " already exists. Not modifying."],
          cookie := some cookie, created := false }
      else if !c.apply then
        { exitCode := 0, abnormal := false, commands := cmds,
          logs := logs1 ++ ["", "Dry-run mode. No changes made.", "Use --apply to create:",
                            "    mklink /J " ++ broken ++ " " ++ actual],
          cookie := some cookie, created := false }
      else
        match create_junction c.debug w actual broken with
        | (cjlogs, cjcmds, none) =>
            { exitCode := 1, abnormal := true, commands := cmds ++ cjcmds,
              logs := logs1 ++ ["Creating junction..."] ++ cjlogs,
              cookie := some cookie, created := false }
        | (cjlogs, cjcmds, some ok) =>
            if ok then
              { exitCode := 0, abnormal := false, commands := cmds ++ cjcmds,
                logs := logs1 ++ ["Creating junction..."] ++ cjlogs ++
                        ["Repair complete.", "Try running: cookiecutter"],
                cookie := some cookie, created := true }
            else
              { exitCode := 1, abnormal := false, commands := cmds ++ cjcmds,
                logs := logs1 ++ ["Creating junction..."] ++ cjlogs,
                cookie := some cookie, created := false }

/-- A command line is the OS link-creation invocation exactly when it starts
with `cmd /c mklink /J`. -/
def isMklink (cmd : List String) : Bool :=
  cmd.take 4 = ["cmd", "/c", "mklink", "/J"]

/-- Whether the invocation issued the OS link-creation command at all. -/
def Result.invokesMklink (r : Result) : Bool := r.commands.any isMklink

/-- The link-creation invocations actually issued, in order. -/
def Result.mklinkInvocations (r : Result) : List (List String) :=
  r.commands.filter isMklink

/-- The diagnostic value get_cookiecutter_path yields when the lookup
subprocess completes. -/
def cookieValue (r : CompletedProcess) : String :=
  if r.returncode = 0 then r.stdout.trim else "not found"

/-- The log lines emitted from the start of main through the cookiecutter
diagnostic line, given the lookup completed with value `cookie`. -/
def prefixLogs (c : Cli) (w : World) (cookie : String) : List String :=
  headerLogs c w ++ execLog c.debug whereCmd ++ ["cookiecutter resolved to: " ++ cookie]

/-- The world as observed with the cookiecutter lookup answering `r`
instead: every other observation is unchanged. -/
def updateWhere (w : World) (r : CompletedProcess) : World :=
  { w with whereResult := some r }

/-- A lookup subprocess that succeeded (used as a concrete witness input). -/
def procOk : CompletedProcess :=
  { returncode := 0, stdout := "C:\\tools\\cookiecutter.exe", stderr := "" }

/-- A subprocess that ran and failed (used as a concrete witness input). -/
def procFail : CompletedProcess :=
  { returncode := 1, stdout := "", stderr := "Access is denied." }

/-- A dry-run invocation with no flags (argparse defaults). -/
def dryCli : Cli := { brokenRoot := none, actualRoot := none, apply := false, debug := false }

/-- An invocation with only the apply flag. -/
def applyCli : Cli := { brokenRoot := none, actualRoot := none, apply := true, debug := false }

/-- The nominal repair scenario: actual root present, broken root absent at
every observation, both subprocesses succeed. -/
def baseWorld : World :=
  { whereResult := some procOk, mklinkResult := some procOk,
    brokenExistsDiag := false, brokenIsDirDiag := false,
    actualExistsDiag := true, actualIsDirDiag := true,
    actualExistsCheck := true, brokenExistsCheck := false, linkExistsCJ := false,
    sysExecutable := "C:\\tools\\miniconda3\\python.exe",
    sysExecutableParent := "C:\\tools\\miniconda3" }

/-- Broken root already exists (no-op scenario). -/
def noopWorld : World :=
  { baseWorld with brokenExistsDiag := true, brokenIsDirDiag := true,
                   brokenExistsCheck := true }

/-- Actual root missing (fatal scenario). -/
def missingActualWorld : World :=
  { baseWorld with actualExistsDiag := false, actualIsDirDiag := false,
                   actualExistsCheck := false }

/-- Broken root exists and actual root is missing at the same time. -/
def bothBadWorld : World :=
  { baseWorld with brokenExistsDiag := true, brokenIsDirDiag := true,
                   brokenExistsCheck := true,
                   actualExistsDiag := false, actualIsDirDiag := false,
                   actualExistsCheck := false }

/-- Broken root appears between main's no-op check and create_junction's
own check (the race the spec discusses). -/
def racedWorld : World := { baseWorld with linkExistsCJ := true }

/-- The mklink subprocess runs but reports failure. -/
def mklinkFailWorld : World := { baseWorld with mklinkResult := some procFail }

/-- Spawning the lookup subprocess itself raises. -/
def spawnRaiseWorld : World := { baseWorld with whereResult := none }

/-- The lookup subprocess runs but returns a non-zero status. -/
def whereFailWorld : World := { baseWorld with whereResult := some procFail }

theorem gccp_eq_spawnRaise (debug : Bool) (w : World) (hw : w.whereResult = none) :
    get_cookiecutter_path debug w = (execLog debug whereCmd, [], none) := by
  simp [get_cookiecutter_path, run, hw]

theorem gccp_eq_run (debug : Bool) (w : World) (r : CompletedProcess)
    (hw : w.whereResult = some r) :
    get_cookiecutter_path debug w =
      (execLog debug whereCmd, [whereCmd], some (cookieValue r)) := by
  simp only [get_cookiecutter_path, run, hw, cookieValue]
  split <;> rfl

theorem cj_eq_linkExists (debug : Bool) (w : World) (target link : String)
    (hL : w.linkExistsCJ = true) :
    create_junction debug w target link =
      (["Cannot create junction: " ++ link ++ " already exists."], [], some false) := by
  simp [create_junction, hL]

theorem cj_eq_spawnRaise (debug : Bool) (w : World) (target link : String)
    (hL : w.linkExistsCJ = false) (hm : w.mklinkResult = none) :
    create_junction debug w target link =
      (execLog debug (mklinkCmdFor link target), [], none) := by
  simp [create_junction, run, hL, hm]

theorem cj_eq_ok (debug : Bool) (w : World) (target link : String)
    (r : CompletedProcess) (hL : w.linkExistsCJ = false)
    (hm : w.mklinkResult = some r) (h0 : r.returncode = 0) :
    create_junction debug w target link =
      (execLog debug (mklinkCmdFor link target) ++
         ["Created junction: " ++ link ++ " -> " ++ target],
       [mklinkCmdFor link target], some true) := by
  simp [create_junction, run, hL, hm, h0]

theorem cj_eq_fail (debug : Bool) (w : World) (target link : String)
    (r : CompletedProcess) (hL : w.linkExistsCJ = false)
    (hm : w.mklinkResult = some r) (h0 : r.returncode ≠ 0) :
    create_junction debug w target link =
      (execLog debug (mklinkCmdFor link target) ++ ["mklink failed: " ++ r.stderr],
       [mklinkCmdFor link target], some false) := by
  simp [create_junction, run, hL, hm, h0]

theorem main_eq_spawnRaise (c : Cli) (w : World) (hw : w.whereResult = none) :
    main c w =
      { exitCode := 1, abnormal := true, commands := [],
        logs := headerLogs c w ++ execLog c.debug whereCmd,
        cookie := none, created := false } := by
  simp [main, gccp_eq_spawnRaise c.debug w hw]

theorem main_eq_fatal (c : Cli) (w : World) (r : CompletedProcess)
    (hw : w.whereResult = some r) (hA : w.actualExistsCheck = false) :
    main c w =
      { exitCode := 1, abnormal := false, commands := [whereCmd],
        logs := prefixLogs c w (cookieValue r) ++
          ["Actual miniconda root does not exist. Cannot continue."],
        cookie := some (cookieValue r), created := false } := by
  simp [main, gccp_eq_run c.debug w r hw, hA, prefixLogs]

theorem main_eq_noop (c : Cli) (w : World) (r : CompletedProcess)
    (hw : w.whereResult = some r) (hA : w.actualExistsCheck = true)
    (hB : w.brokenExistsCheck = true) :
    main c w =
      { exitCode := 0, abnormal := false, commands := [whereCmd],
        logs := prefixLogs c w (cookieValue r) ++
          [resolveBroken c ++ " already exists. Not modifying."],
        cookie := some (cookieValue r), created := false } := by
  simp [main, gccp_eq_run c.debug w r hw, hA, hB, prefixLogs]

theorem main_eq_dryrun (c : Cli) (w : World) (r : CompletedProcess)
    (hw : w.whereResult = some r) (hA : w.actualExistsCheck = true)
    (hB : w.brokenExistsCheck = false) (hP : c.apply = false) :
    main c w =
      { exitCode := 0, abnormal := false, commands := [whereCmd],
        logs := prefixLogs c w (cookieValue r) ++
          ["", "Dry-run mode. No changes made.", "Use --apply to create:",
           "    mklink /J " ++ resolveBroken c ++ " " ++ resolveActual c w],
        cookie := some (cookieValue r), created := false } := by
  simp [main, gccp_eq_run c.debug w r hw, hA, hB, hP, prefixLogs]

theorem main_eq_applyPrevented (c : Cli) (w : World) (r : CompletedProcess)
    (hw : w.whereResult = some r) (hA : w.actualExistsCheck = true)
    (hB : w.brokenExistsCheck = false) (hP : c.apply = true)
    (hL : w.linkExistsCJ = true) :
    main c w =
      { exitCode := 1, abnormal := false, commands := [whereCmd],
        logs := prefixLogs c w (cookieValue r) ++
          ["Creating junction...",
           "Cannot create junction: " ++ resolveBroken c ++ " already exists."],
        cookie := some (cookieValue r), created := false } := by
  simp [main, gccp_eq_run c.debug w r hw, hA, hB, hP, prefixLogs,
        cj_eq_linkExists c.debug w (resolveActual c w) (resolveBroken c) hL]

theorem main_eq_applySpawnRaise (c : Cli) (w : World) (r : CompletedProcess)
    (hw : w.whereResult = some r) (hA : w.actualExistsCheck = true)
    (hB : w.brokenExistsCheck = false) (hP : c.apply = true)
    (hL : w.linkExistsCJ = false) (hm : w.mklinkResult = none) :
    main c w =
      { exitCode := 1, abnormal := true, commands := [whereCmd],
        logs := prefixLogs c w (cookieValue r) ++
          ["Creating junction..."] ++
          execLog c.debug (mklinkCmdFor (resolveBroken c) (resolveActual c w)),
        cookie := some (cookieValue r), created := false } := by
  simp [main, gccp_eq_run c.debug w r hw, hA, hB, hP, prefixLogs,
        cj_eq_spawnRaise c.debug w (resolveActual c w) (resolveBroken c) hL hm]

theorem main_eq_applyOk (c : Cli) (w : World) (r rm : CompletedProcess)
    (hw : w.whereResult = some r) (hA : w.actualExistsCheck = true)
    (hB : w.brokenExistsCheck = false) (hP : c.apply = true)
    (hL : w.linkExistsCJ = false) (hm : w.mklinkResult = some rm)
    (h0 : rm.returncode = 0) :
    main c w =
      { exitCode := 0, abnormal := false,
        commands := [whereCmd, mklinkCmdFor (resolveBroken c) (resolveActual c w)],
        logs := prefixLogs c w (cookieValue r) ++
          ["Creating junction..."] ++
          execLog c.debug (mklinkCmdFor (resolveBroken c) (resolveActual c w)) ++
          ["Created junction: " ++ resolveBroken c ++ " -> " ++ resolveActual c w,
           "Repair complete.", "Try running: cookiecutter"],
        cookie := some (cookieValue r), created := true } := by
  simp [main, gccp_eq_run c.debug w r hw, hA, hB, hP, prefixLogs,
        cj_eq_ok c.debug w (resolveActual c w) (resolveBroken c) rm hL hm h0]

theorem main_eq_applyFail (c : Cli) (w : World) (r rm : CompletedProcess)
    (hw : w.whereResult = some r) (hA : w.actualExistsCheck = true)
    (hB : w.brokenExistsCheck = false) (hP : c.apply = true)
    (hL : w.linkExistsCJ = false) (hm : w.mklinkResult = some rm)
    (h0 : rm.returncode ≠ 0) :
    main c w =
      { exitCode := 1, abnormal := false,
        commands := [whereCmd, mklinkCmdFor (resolveBroken c) (resolveActual c w)],
        logs := prefixLogs c w (cookieValue r) ++
          ["Creating junction..."] ++
          execLog c.debug (mklinkCmdFor (resolveBroken c) (resolveActual c w)) ++
          ["mklink failed: " ++ rm.stderr],
        cookie := some (cookieValue r), created := false } := by
  simp [main, gccp_eq_run c.debug w r hw, hA, hB, hP, prefixLogs,
        cj_eq_fail c.debug w (resolveActual c w) (resolveBroken c) rm hL hm h0]

theorem isMklink_whereCmd : isMklink whereCmd = false := rfl

theorem isMklink_mklinkCmdFor (link target : String) :
    isMklink (mklinkCmdFor link target) = true := by
  simp [isMklink, mklinkCmdFor]

theorem invokesMklink_whereOnly (e : Nat) (a : Bool) (l : List String)
    (k : Option String) (b : Bool) :
    Result.invokesMklink
      { exitCode := e, abnormal := a, commands := [whereCmd],
        logs := l, cookie := k, created := b } = false := rfl

/-- C1 (counterexample): an invocation in which the broken root exists but
the actual root does not exits with status 1, not 0 — the missing-target
check at line 138 precedes the no-op check at line 143, so the claim's
"regardless of whether Actual Path exists" fails.  (No mutation happens,
as the claim also says.) -/
theorem c1_claim_counterexample :
    bothBadWorld.brokenExistsCheck = true ∧
    bothBadWorld.actualExistsCheck = false ∧
    (main dryCli bothBadWorld).invokesMklink = false ∧
    (main dryCli bothBadWorld).exitCode ≠ 0 := by
  refine ⟨rfl, rfl, rfl, ?_⟩
  decide

/-- C1 (amended): when the broken root already exists AND the actual root
also exists (and the diagnostic lookup subprocess launches), the process
issues no link-creation command, creates nothing, and exits 0, regardless
of the apply flag; the amendment adds the actual-root condition, because
the missing-target check runs first and exits 1. -/
theorem c1_noop_branch (c : Cli) (w : World) (r : CompletedProcess)
    (hw : w.whereResult = some r) (hB : w.brokenExistsCheck = true)
    (hA : w.actualExistsCheck = true) :
    (main c w).invokesMklink = false ∧ (main c w).created = false ∧
    (main c w).exitCode = 0 := by
  rw [main_eq_noop c w r hw hA hB]
  exact ⟨rfl, rfl, rfl⟩

/-- C1 witness: the amended no-op branch at a concrete invocation with the
apply flag set. -/
theorem c1_noop_branch_witness :
    noopWorld.whereResult = some procOk ∧ noopWorld.brokenExistsCheck = true ∧
    noopWorld.actualExistsCheck = true ∧
    ((main applyCli noopWorld).invokesMklink = false ∧
     (main applyCli noopWorld).created = false ∧
     (main applyCli noopWorld).exitCode = 0) :=
  ⟨rfl, rfl, rfl, c1_noop_branch applyCli noopWorld procOk rfl rfl rfl⟩

/-- C2: whenever the actual root does not exist at the precondition check,
the process exits 1 and never issues the link-creation command — this holds
even if the diagnostic lookup raised (exit is 1 then too). -/
theorem c2_missing_actual (c : Cli) (w : World)
    (hA : w.actualExistsCheck = false) :
    (main c w).exitCode = 1 ∧ (main c w).invokesMklink = false ∧
    (main c w).created = false := by
  cases hw : w.whereResult with
  | none =>
    rw [main_eq_spawnRaise c w hw]
    exact ⟨rfl, rfl, rfl⟩
  | some r =>
    rw [main_eq_fatal c w r hw hA]
    exact ⟨rfl, rfl, rfl⟩

/-- C2 witness: the fatal branch at a concrete invocation with the apply
flag set. -/
theorem c2_missing_actual_witness :
    missingActualWorld.actualExistsCheck = false ∧
    ((main applyCli missingActualWorld).exitCode = 1 ∧
     (main applyCli missingActualWorld).invokesMklink = false ∧
     (main applyCli missingActualWorld).created = false) :=
  ⟨rfl, c2_missing_actual applyCli missingActualWorld rfl⟩

/-- C3: without the apply flag, when the actual root exists and the broken
root does not, the process prints the exact mklink command it would run,
never issues the link-creation command, and exits 0. -/
theorem c3_dryrun (c : Cli) (w : World) (r : CompletedProcess)
    (hw : w.whereResult = some r) (hA : w.actualExistsCheck = true)
    (hB : w.brokenExistsCheck = false) (hP : c.apply = false) :
    (main c w).exitCode = 0 ∧ (main c w).invokesMklink = false ∧
    (main c w).created = false ∧
    ("    mklink /J " ++ resolveBroken c ++ " " ++ resolveActual c w) ∈
      (main c w).logs := by
  rw [main_eq_dryrun c w r hw hA hB hP]
  refine ⟨rfl, rfl, rfl, ?_⟩
  simp

/-- C3 witness: the dry-run branch at the nominal concrete scenario. -/
theorem c3_dryrun_witness :
    baseWorld.whereResult = some procOk ∧ baseWorld.actualExistsCheck = true ∧
    baseWorld.brokenExistsCheck = false ∧ dryCli.apply = false ∧
    ((main dryCli baseWorld).exitCode = 0 ∧
     (main dryCli baseWorld).invokesMklink = false ∧
     (main dryCli baseWorld).created = false ∧
     ("    mklink /J " ++ resolveBroken dryCli ++ " " ++
        resolveActual dryCli baseWorld) ∈ (main dryCli baseWorld).logs) :=
  ⟨rfl, rfl, rfl, rfl, c3_dryrun dryCli baseWorld procOk rfl rfl rfl rfl⟩

/-- C4: with the apply flag, when the actual root exists and the broken
root does not (at every one of the tool's own checks), the OS
link-creation facility is invoked exactly once, as
`cmd /c mklink /J <broken> <actual>`; and if that subprocess exits 0 the
process reports success and exits 0, having created the junction. -/
theorem c4_apply_success (c : Cli) (w : World) (r rm : CompletedProcess)
    (hw : w.whereResult = some r) (hA : w.actualExistsCheck = true)
    (hB : w.brokenExistsCheck = false) (hP : c.apply = true)
    (hL : w.linkExistsCJ = false) (hm : w.mklinkResult = some rm) :
    (main c w).mklinkInvocations =
      [mklinkCmdFor (resolveBroken c) (resolveActual c w)] ∧
    (rm.returncode = 0 →
      (main c w).exitCode = 0 ∧ (main c w).created = true ∧
      "Repair complete." ∈ (main c w).logs) := by
  by_cases h0 : rm.returncode = 0
  · rw [main_eq_applyOk c w r rm hw hA hB hP hL hm h0]
    refine ⟨?_, fun _ => ⟨rfl, rfl, ?_⟩⟩
    · simp [Result.mklinkInvocations, isMklink_whereCmd, isMklink_mklinkCmdFor]
    · simp
  · rw [main_eq_applyFail c w r rm hw hA hB hP hL hm h0]
    refine ⟨?_, fun h => absurd h h0⟩
    simp [Result.mklinkInvocations, isMklink_whereCmd, isMklink_mklinkCmdFor]

/-- C4 witness: the successful apply branch at the nominal concrete
scenario. -/
theorem c4_apply_success_witness :
    baseWorld.whereResult = some procOk ∧ baseWorld.actualExistsCheck = true ∧
    baseWorld.brokenExistsCheck = false ∧ applyCli.apply = true ∧
    baseWorld.linkExistsCJ = false ∧ baseWorld.mklinkResult = some procOk ∧
    ((main applyCli baseWorld).mklinkInvocations =
       [mklinkCmdFor (resolveBroken applyCli) (resolveActual applyCli baseWorld)] ∧
     (procOk.returncode = 0 →
       (main applyCli baseWorld).exitCode = 0 ∧
       (main applyCli baseWorld).created = true ∧
       "Repair complete." ∈ (main applyCli baseWorld).logs)) :=
  ⟨rfl, rfl, rfl, rfl, rfl, rfl,
   c4_apply_success applyCli baseWorld procOk procOk rfl rfl rfl rfl rfl rfl⟩

/-- C5: with the apply flag, after all precondition checks pass, a non-zero
exit status from the mklink subprocess makes the process log the
OS-provided stderr text and exit 1, and the tool has created nothing (its
one possible mutation did not happen). -/
theorem c5_apply_failure (c : Cli) (w : World) (r rm : CompletedProcess)
    (hw : w.whereResult = some r) (hA : w.actualExistsCheck = true)
    (hB : w.brokenExistsCheck = false) (hP : c.apply = true)
    (hL : w.linkExistsCJ = false) (hm : w.mklinkResult = some rm)
    (h0 : rm.returncode ≠ 0) :
    (main c w).exitCode = 1 ∧ (main c w).created = false ∧
    (main c w).abnormal = false ∧
    ("mklink failed: " ++ rm.stderr) ∈ (main c w).logs := by
  rw [main_eq_applyFail c w r rm hw hA hB hP hL hm h0]
  refine ⟨rfl, rfl, rfl, ?_⟩
  simp

/-- C5 witness: the failing apply branch at a concrete scenario where
mklink reports "Access is denied.". -/
theorem c5_apply_failure_witness :
    mklinkFailWorld.whereResult = some procOk ∧
    mklinkFailWorld.actualExistsCheck = true ∧
    mklinkFailWorld.brokenExistsCheck = false ∧ applyCli.apply = true ∧
    mklinkFailWorld.linkExistsCJ = false ∧
    mklinkFailWorld.mklinkResult = some procFail ∧ procFail.returncode ≠ 0 ∧
    ((main applyCli mklinkFailWorld).exitCode = 1 ∧
     (main applyCli mklinkFailWorld).created = false ∧
     (main applyCli mklinkFailWorld).abnormal = false ∧
     ("mklink failed: " ++ procFail.stderr) ∈ (main applyCli mklinkFailWorld).logs) :=
  ⟨rfl, rfl, rfl, rfl, rfl, rfl, by decide,
   c5_apply_failure applyCli mklinkFailWorld procOk procFail rfl rfl rfl rfl rfl rfl
     (by decide)⟩

/-- C6 (counterexample): when the broken root comes into existence between
main's no-op check and create_junction's own check, the tool does NOT
issue the OS link-creation command (the claim says the OS command would be
issued and fail): create_junction's additional pre-check at line 82 refuses
first, and the process exits 1 with the tool's own error message. -/
theorem c6_claim_counterexample :
    applyCli.apply = true ∧ racedWorld.actualExistsCheck = true ∧
    racedWorld.brokenExistsCheck = false ∧ racedWorld.linkExistsCJ = true ∧
    (main applyCli racedWorld).invokesMklink = false ∧
    (main applyCli racedWorld).exitCode = 1 := by
  exact ⟨rfl, rfl, rfl, rfl, rfl, rfl⟩

/-- C6 (amended): besides the step-4 no-op check, create_junction performs
one further existence check on the link path immediately before issuing the
OS command.  A broken root observed to exist at that second check is
rejected by the tool itself — no OS command is issued, the tool logs its
own "already exists" error, and the process exits 1; only when that second
check also sees the path absent is the OS command issued (and any later
conflict is then the OS command's error to report). -/
theorem c6_second_precheck (c : Cli) (w : World) (r : CompletedProcess)
    (hw : w.whereResult = some r) (hA : w.actualExistsCheck = true)
    (hB : w.brokenExistsCheck = false) (hP : c.apply = true) :
    (w.linkExistsCJ = true →
      (main c w).invokesMklink = false ∧ (main c w).exitCode = 1 ∧
      ("Cannot create junction: " ++ resolveBroken c ++ " already exists.") ∈
        (main c w).logs) ∧
    (∀ rm : CompletedProcess, w.linkExistsCJ = false → w.mklinkResult = some rm →
      (main c w).mklinkInvocations =
        [mklinkCmdFor (resolveBroken c) (resolveActual c w)]) := by
  constructor
  · intro hL
    rw [main_eq_applyPrevented c w r hw hA hB hP hL]
    refine ⟨rfl, rfl, ?_⟩
    simp
  · intro rm hL hm
    exact (c4_apply_success c w r rm hw hA hB hP hL hm).1

/-- C6 witness: the amended behavior at the concrete raced scenario. -/
theorem c6_second_precheck_witness :
    racedWorld.whereResult = some procOk ∧ racedWorld.actualExistsCheck = true ∧
    racedWorld.brokenExistsCheck = false ∧ applyCli.apply = true ∧
    racedWorld.linkExistsCJ = true ∧
    ((main applyCli racedWorld).invokesMklink = false ∧
     (main applyCli racedWorld).exitCode = 1 ∧
     ("Cannot create junction: " ++ resolveBroken applyCli ++ " already exists.") ∈
       (main applyCli racedWorld).logs) :=
  ⟨rfl, rfl, rfl, rfl, rfl,
   (c6_second_precheck applyCli racedWorld procOk rfl rfl rfl rfl).1 rfl⟩

/-- C7: the OS link-creation command is issued only in a state where the
tool's own checks observed the actual root to exist and the broken root to
be absent, both at main's no-op check and at create_junction's check;
under every other combination no link-creation command is issued. -/
theorem c7_mklink_invariant (c : Cli) (w : World)
    (h : (main c w).invokesMklink = true) :
    w.actualExistsCheck = true ∧ w.brokenExistsCheck = false ∧
    w.linkExistsCJ = false ∧ c.apply = true := by
  cases hw : w.whereResult with
  | none =>
    rw [main_eq_spawnRaise c w hw] at h
    exact absurd h (by simp [Result.invokesMklink])
  | some r =>
    by_cases hA : w.actualExistsCheck = true
    · by_cases hB : w.brokenExistsCheck = true
      · rw [main_eq_noop c w r hw hA hB] at h
        exact absurd h (by simp [invokesMklink_whereOnly])
      · simp only [Bool.not_eq_true] at hB
        by_cases hP : c.apply = true
        · by_cases hL : w.linkExistsCJ = true
          · rw [main_eq_applyPrevented c w r hw hA hB hP hL] at h
            exact absurd h (by simp [invokesMklink_whereOnly])
          · simp only [Bool.not_eq_true] at hL
            exact ⟨hA, hB, hL, hP⟩
        · simp only [Bool.not_eq_true] at hP
          rw [main_eq_dryrun c w r hw hA hB hP] at h
          exact absurd h (by simp [invokesMklink_whereOnly])
    · simp only [Bool.not_eq_true] at hA
      rw [main_eq_fatal c w r hw hA] at h
      exact absurd h (by simp [invokesMklink_whereOnly])

/-- C7 witness: the invariant applied at the nominal apply scenario, where
the link-creation command is in fact issued. -/
theorem c7_mklink_invariant_witness :
    (main applyCli baseWorld).invokesMklink = true ∧
    (baseWorld.actualExistsCheck = true ∧ baseWorld.brokenExistsCheck = false ∧
     baseWorld.linkExistsCJ = false ∧ applyCli.apply = true) :=
  ⟨by decide, c7_mklink_invariant applyCli baseWorld (by decide)⟩

theorem resolveActual_updateWhere (c : Cli) (w : World) (rX : CompletedProcess) :
    resolveActual c (updateWhere w rX) = resolveActual c w := by
  cases h : c.actualRoot <;> simp [resolveActual, updateWhere, h]

/-- C8: when the lookup subprocess for cookiecutter runs and returns a
non-zero status, the diagnostic value is the string "not found", it is
reported in an informational log line, and execution continues normally;
moreover, replacing the lookup's answer by any other completed result
changes neither the exit status, nor the commands issued, nor whether a
junction was created, nor whether termination was abnormal — the lookup
result never alters which branch is taken. -/
theorem c8_lookup_informational (c : Cli) (w : World) (r rX : CompletedProcess)
    (hw : w.whereResult = some r) (hr : r.returncode ≠ 0) :
    (main c w).cookie = some "not found" ∧
    "cookiecutter resolved to: not found" ∈ (main c w).logs ∧
    (main c (updateWhere w rX)).exitCode = (main c w).exitCode ∧
    (main c (updateWhere w rX)).commands = (main c w).commands ∧
    (main c (updateWhere w rX)).created = (main c w).created ∧
    (main c (updateWhere w rX)).abnormal = (main c w).abnormal := by
  have hcv : cookieValue r = "not found" := by simp [cookieValue, hr]
  by_cases hA : w.actualExistsCheck = true
  · by_cases hB : w.brokenExistsCheck = true
    · rw [main_eq_noop c w r hw hA hB,
          main_eq_noop c (updateWhere w rX) rX rfl hA hB]
      refine ⟨by rw [hcv], by simp [prefixLogs, hcv], rfl, rfl, rfl, rfl⟩
    · simp only [Bool.not_eq_true] at hB
      by_cases hP : c.apply = true
      · by_cases hL : w.linkExistsCJ = true
        · rw [main_eq_applyPrevented c w r hw hA hB hP hL,
              main_eq_applyPrevented c (updateWhere w rX) rX rfl hA hB hP hL]
          refine ⟨by rw [hcv], by simp [prefixLogs, hcv], rfl, rfl, rfl, rfl⟩
        · simp only [Bool.not_eq_true] at hL
          cases hm : w.mklinkResult with
          | none =>
            rw [main_eq_applySpawnRaise c w r hw hA hB hP hL hm,
                main_eq_applySpawnRaise c (updateWhere w rX) rX rfl hA hB hP hL hm]
            refine ⟨by rw [hcv], by simp [prefixLogs, hcv], rfl, rfl, rfl, rfl⟩
          | some rm =>
            by_cases h0 : rm.returncode = 0
            · rw [main_eq_applyOk c w r rm hw hA hB hP hL hm h0,
                  main_eq_applyOk c (updateWhere w rX) rX rm rfl hA hB hP hL hm h0]
              refine ⟨by rw [hcv], by simp [prefixLogs, hcv], rfl, ?_, rfl, rfl⟩
              rw [resolveActual_updateWhere]
            · rw [main_eq_applyFail c w r rm hw hA hB hP hL hm h0,
                  main_eq_applyFail c (updateWhere w rX) rX rm rfl hA hB hP hL hm h0]
              refine ⟨by rw [hcv], by simp [prefixLogs, hcv], rfl, ?_, rfl, rfl⟩
              rw [resolveActual_updateWhere]
      · simp only [Bool.not_eq_true] at hP
        rw [main_eq_dryrun c w r hw hA hB hP,
            main_eq_dryrun c (updateWhere w rX) rX rfl hA hB hP]
        refine ⟨by rw [hcv], by simp [prefixLogs, hcv], rfl, rfl, rfl, rfl⟩
  · simp only [Bool.not_eq_true] at hA
    rw [main_eq_fatal c w r hw hA,
        main_eq_fatal c (updateWhere w rX) rX rfl hA]
    refine ⟨by rw [hcv], by simp [prefixLogs, hcv], rfl, rfl, rfl, rfl⟩

/-- C8 witness: the failing lookup at a concrete dry-run scenario, with the
replacement answer being the successful lookup. -/
theorem c8_lookup_informational_witness :
    whereFailWorld.whereResult = some procFail ∧ procFail.returncode ≠ 0 ∧
    ((main dryCli whereFailWorld).cookie = some "not found" ∧
     "cookiecutter resolved to: not found" ∈ (main dryCli whereFailWorld).logs ∧
     (main dryCli (updateWhere whereFailWorld procOk)).exitCode =
       (main dryCli whereFailWorld).exitCode ∧
     (main dryCli (updateWhere whereFailWorld procOk)).commands =
       (main dryCli whereFailWorld).commands ∧
     (main dryCli (updateWhere whereFailWorld procOk)).created =
       (main dryCli whereFailWorld).created ∧
     (main dryCli (updateWhere whereFailWorld procOk)).abnormal =
       (main dryCli whereFailWorld).abnormal) :=
  ⟨rfl, by decide,
   c8_lookup_informational dryCli whereFailWorld procFail procOk rfl (by decide)⟩

/-- C9: when the actual-root flag is not given, the actual path is the
parent directory of the running interpreter's executable; when the
broken-root flag is not given, the broken path is the fixed well-known
default C:\miniconda3. -/
theorem c9_defaults (c : Cli) (w : World) :
    (c.actualRoot = none → resolveActual c w = w.sysExecutableParent) ∧
    (c.brokenRoot = none → resolveBroken c = "C:\\miniconda3") := by
  constructor
  · intro h
    simp [resolveActual, h]
  · intro h
    simp [resolveBroken, h]

/-- C9 witness: the defaults at the flagless concrete invocation. -/
theorem c9_defaults_witness :
    resolveActual dryCli baseWorld = baseWorld.sysExecutableParent ∧
    resolveBroken dryCli = "C:\\miniconda3" :=
  ⟨(c9_defaults dryCli baseWorld).1 rfl, (c9_defaults dryCli baseWorld).2 rfl⟩

/-- C10: if spawning the lookup subprocess itself raises, the exception
propagates uncaught: the process terminates abnormally with status 1, the
diagnostic value is never computed (in particular it is not "not found"),
and no subprocess command at all is executed — execution never reaches the
precondition check or any later branch. -/
theorem c10_spawn_raise (c : Cli) (w : World) (hw : w.whereResult = none) :
    (main c w).abnormal = true ∧ (main c w).exitCode = 1 ∧
    (main c w).cookie = none ∧ (main c w).commands = [] := by
  rw [main_eq_spawnRaise c w hw]
  exact ⟨rfl, rfl, rfl, rfl⟩

/-- C10 witness: the raising lookup at a concrete invocation. -/
theorem c10_spawn_raise_witness :
    spawnRaiseWorld.whereResult = none ∧
    ((main applyCli spawnRaiseWorld).abnormal = true ∧
     (main applyCli spawnRaiseWorld).exitCode = 1 ∧
     (main applyCli spawnRaiseWorld).cookie = none ∧
     (main applyCli spawnRaiseWorld).commands = []) :=
  ⟨rfl, c10_spawn_raise applyCli spawnRaiseWorld rfl⟩

end RepairConda
